import Mathlib

/-!
Verification of the query-shape classifier and cross-engine dispatcher of
DataCageMatch (`src/main.py`).

The embedding models the Python source shallowly:
- a loaded table (`Frame`) is a column-name list plus a list of rows, where a
  row is an association list from column name to value;
- the catalog `data` built by `main` is an association list from table name to
  frame (the polars copy of table `t` is stored under key `t ++ "_polars"`,
  as in `main`);
- Python exceptions (`IndexError` from list subscripts, `ValueError` from
  `list.index`, `KeyError` from dict subscripts) are modelled with `Except`;
- wall-clock timing (`time.time()` bracketing) is omitted: it has no bearing
  on results, classification or control flow.
-/

/-- A cell value. `dateText` models a still-textual date literal
(`"1995-06-15"`), `date` a parsed datetime/date value; `pd.to_datetime` and
the polars `strptime` cast map the former to the latter. -/
inductive Val where
  | int (n : Int)
  | str (s : String)
  | dateText (y m d : Nat)
  | date (y m d : Nat)
deriving DecidableEq

/-- A dataframe row: an association list from column name to value. -/
abbrev Row : Type := List (String × Val)

/-- A loaded dataframe: its column names and its rows. -/
structure Frame where
  cols : List String
  rows : List Row
deriving DecidableEq

/-- The `data` dict of `main`: table name (pandas copies) or
table name + `"_polars"` (polars copies) to frame. -/
abbrev Catalog : Type := List (String × Frame)

/-- The Python exceptions the dispatcher can raise. -/
inductive PyError where
  | indexError
  | valueError
  | keyError
deriving DecidableEq

/-- The per-query alias dict `table_aliases`. Overwrites are modelled by
prepending, so the most recent binding shadows (Python dict assignment:
last write wins). -/
abbrev AliasMap : Type := List (String × String)

/-- First-match association-list lookup (Python dict lookup; keys are unique
in every dict the program builds, overwrites shadow). -/
def alookup {β : Type} (k : String) : List (String × β) → Option β
  | [] => Option.none
  | p :: rest => if p.1 = k then some p.2 else alookup k rest

/-- `table_aliases.get(a, a)`: identity fallback. -/
def aliasGet (m : AliasMap) (a : String) : String := (alookup a m).getD a

/-- In-place replacement of the frame stored under key `k`
(`data[k]` holds a mutable object; column assignment mutates it). -/
def updateCat (c : Catalog) (k : String) (v : Frame) : Catalog :=
  c.map (fun p => if p.1 = k then (k, v) else p)

/-- Python `k in data`. -/
def containsKey (c : Catalog) (k : String) : Bool := (alookup k c).isSome

/-- Split a character stream at whitespace characters (producing empty
pieces for runs, exactly like splitting at every whitespace position). -/
def splitWsAux : List Char → List Char → List String
  | [], acc => [String.mk acc.reverse]
  | c :: cs, acc =>
    if c.isWhitespace then String.mk acc.reverse :: splitWsAux cs []
    else splitWsAux cs (c :: acc)

/-- Python `str.split()`: split on whitespace runs, drop empty pieces. -/
def pySplit (s : String) : List String :=
  (splitWsAux s.toList []).filter (fun t => ¬ t = "")

/-- Python `str.upper()` (ASCII, which covers all query text). -/
def pyUpper (s : String) : String := String.mk (s.toList.map Char.toUpper)

/-- Does `hay` start with `needle`? -/
def strStartsWith : List Char → List Char → Bool
  | [], _ => true
  | _ :: _, [] => false
  | n :: ns, h :: hs => if n = h then strStartsWith ns hs else false

/-- Does `needle` occur as a contiguous run inside `hay`? -/
def strFindSub : List Char → List Char → Bool
  | needle, [] => strStartsWith needle []
  | needle, h :: hs => if strStartsWith needle (h :: hs) then true else strFindSub needle hs

/-- Python `needle in hay` on strings: substring containment. -/
def pyContains (needle hay : String) : Bool :=
  strFindSub needle.toList hay.toList

/-- Python `lst[i]` for a non-negative index: `IndexError` past the end. -/
def pyGetNat {α : Type} (l : List α) (i : Nat) : Except PyError α :=
  match l[i]? with
  | some a => Except.ok a
  | Option.none => Except.error PyError.indexError

/-- Python `lst[i]` with Python index semantics: a negative index counts
from the end; out of range raises `IndexError`. -/
def pyGetI {α : Type} (l : List α) (i : Int) : Except PyError α :=
  let j : Int := if i < 0 then i + l.length else i
  if h : 0 ≤ j ∧ j.toNat < l.length then Except.ok (l.get ⟨j.toNat, h.2⟩)
  else Except.error PyError.indexError

/-- Python `lst.index(x)`: position of the first occurrence, `ValueError`
when absent. -/
def pyIndex (l : List String) (x : String) : Except PyError Nat :=
  if x ∈ l then Except.ok (l.indexOf x) else Except.error PyError.valueError

/-- The clause keywords excluded as alias candidates (source lines 63/117):
the check is against these exact, upper-case strings. -/
def excludedAliases : List String := ["WHERE", "ON", "ORDER", "GROUP"]

/-- The alias-resolution scan (source lines 57-64 and 111-118): walk the
token list; a token whose upper-casing is `FROM` or `JOIN` makes the next
token a table name (`IndexError` when there is none, from
`query_parts[i + 1]`), and the token after that, when present and not an
excluded clause keyword, an alias for it. The scan then continues from the
table-name token, exactly like the Python `for i, part in enumerate(...)`
loop. -/
def buildAliasesAux : List String → AliasMap → Except PyError AliasMap
  | [], m => Except.ok m
  | p :: rest, m =>
    if pyUpper p = "FROM" ∨ pyUpper p = "JOIN" then
      match rest with
      | [] => Except.error PyError.indexError
      | tbl :: rest2 =>
        buildAliasesAux rest
          (match rest2 with
           | [] => m
           | al :: _ => if al ∈ excludedAliases then m else (al, tbl) :: m)
    else buildAliasesAux rest m

/-- `table_aliases` built from the whole token list. -/
def buildAliases (parts : List String) : Except PyError AliasMap :=
  buildAliasesAux parts []

/-- The fixed join-key test `o_orderkey = l_orderkey` (source lines 76/130):
the left row's `o_orderkey` equals the right row's `l_orderkey`; a missing
key value never matches. -/
def joinKeyMatch (a b : Row) : Bool :=
  match alookup "o_orderkey" a, alookup "l_orderkey" b with
  | some x, some y => x == y
  | _, _ => false

/-- The quantity filter `merged_df['l_quantity'] > 30` (source lines 77/131):
strict greater-than; a missing or non-numeric value compares false
(NaN semantics). -/
def rowQtyGt30 (r : Row) : Bool :=
  match alookup "l_quantity" r with
  | some (Val.int n) => decide (30 < n)
  | _ => false

/-- `left_table_df.merge(right_table_df, left_on='o_orderkey',
right_on='l_orderkey')` (source line 76): the inner join, one output row per
matching pair, carrying the left row's columns then the right row's. -/
def pandasMerge (l r : List Row) : List Row :=
  l.flatMap (fun a => (r.filter (fun b => joinKeyMatch a b)).map (fun b => a ++ b))

/-- `left_table.join(right_table, left_on='o_orderkey',
right_on='l_orderkey')` (source line 130): polars' inner join; the right
frame's join-key column is dropped from the output. -/
def polarsJoin (l r : List Row) : List Row :=
  l.flatMap (fun a =>
    (r.filter (fun b => joinKeyMatch a b)).map
      (fun b => a ++ b.filter (fun kv => ¬ kv.1 = "l_orderkey")))

/-- `pd.to_datetime` on one cell: parse a textual date, leave parsed dates
(and anything else) unchanged. -/
def toDatetimeVal : Val → Val
  | Val.dateText y m d => Val.date y m d
  | v => v

/-- Normalize the `o_orderdate` entry of one row. -/
def normRow (r : Row) : Row :=
  r.map (fun kv => if kv.1 = "o_orderdate" then (kv.1, toDatetimeVal kv.2) else kv)

/-- Source lines 85-86: `if 'o_orderdate' in table_df.columns:
table_df['o_orderdate'] = pd.to_datetime(table_df['o_orderdate'])` — the
in-place date normalization, a no-op for frames without the column. -/
def normFrame (f : Frame) : Frame :=
  if "o_orderdate" ∈ f.cols then { cols := f.cols, rows := f.rows.map normRow } else f

/-- Inclusive date comparison `(y1,m1,d1) ≤ (y2,m2,d2)`. -/
def dateLe (y1 m1 d1 y2 m2 d2 : Nat) : Bool :=
  if y1 = y2 then (if m1 = m2 then decide (d1 ≤ d2) else decide (m1 < m2))
  else decide (y1 < y2)

/-- The date-range filter of the count branch (source lines 89/140): an
`o_orderdate` between 1995-01-01 and 1995-12-31 inclusive; only parsed date
values pass. -/
def inRange1995 (r : Row) : Bool :=
  match alookup "o_orderdate" r with
  | some (Val.date y m d) => dateLe 1995 1 1 y m d && dateLe y m d 1995 12 31
  | _ => false

/-- `filtered_df['o_totalprice'].sum()` (source lines 90/141): sum the
integer `o_totalprice` values of the surviving rows; missing cells
contribute nothing. -/
def sumTotalprice (rows : List Row) : Int :=
  (rows.map (fun r =>
    match alookup "o_totalprice" r with
    | some (Val.int n) => n
    | _ => 0)).sum

/-- The grouping key `(l_returnflag, l_linestatus)` of one row. -/
def groupKeyOf (r : Row) : Option Val × Option Val :=
  (alookup "l_returnflag" r, alookup "l_linestatus" r)

/-- Sum of an integer column over a row list. -/
def sumColInt (rows : List Row) (c : String) : Int :=
  (rows.map (fun r =>
    match alookup c r with
    | some (Val.int n) => n
    | _ => 0)).sum

/-- The group-aggregate of both dataframe engines (source lines 92 and 143):
partition by `(l_returnflag, l_linestatus)` and sum `l_quantity` and
`l_extendedprice` per partition, keys in first-occurrence order. -/
def groupAggRows (rows : List Row) : List Row :=
  ((rows.map groupKeyOf).dedup).map (fun k =>
    let grp := rows.filter (fun r => decide (groupKeyOf r = k))
    (match k.1 with | some v => [("l_returnflag", v)] | Option.none => []) ++
    (match k.2 with | some v => [("l_linestatus", v)] | Option.none => []) ++
    [("l_quantity", Val.int (sumColInt grp "l_quantity")),
     ("l_extendedprice", Val.int (sumColInt grp "l_extendedprice"))])

/-- The grouped result frame returned by the `GROUP BY` branch. -/
def groupAggFrame (f : Frame) : Frame :=
  { cols := ["l_returnflag", "l_linestatus", "l_quantity", "l_extendedprice"],
    rows := groupAggRows f.rows }

/-- The value `run_experiment_pandas` can leave in `result`: a bare row count
(join branch), a `(len, sum)` tuple (count branch), a grouped dataframe, or
Python `None`. -/
inductive PdResult where
  | count (n : Nat)
  | pair (n : Nat) (s : Int)
  | frame (f : Frame)
  | none
deriving DecidableEq

/-- The value `run_experiment_polars` can leave in `result`. -/
inductive PlResult where
  | count (n : Nat)
  | pair (n : Nat) (s : Int)
  | frame (f : Frame)
  | none
deriving DecidableEq

/-- Source lines 66-78: the pandas join branch. `query_parts.index('JOIN')`
is guarded by the branch condition; `query_parts[index - 1]` uses Python
index semantics (`-1` wraps to the last token), `[index + 1]` can raise
`IndexError`; the aliases resolve with identity fallback; `data[...]`
raises `KeyError` on a missing table; the branch never touches the stored
frames. -/
def pandasJoinBranch (query_parts : List String) (table_aliases : AliasMap)
    (data : Catalog) : Except PyError (PdResult × Catalog) :=
  match pyIndex query_parts "JOIN" with
  | Except.error e => Except.error e
  | Except.ok j =>
    match pyGetI query_parts ((j : Int) - 1) with
    | Except.error e => Except.error e
    | Except.ok left_table_alias =>
      match pyGetI query_parts ((j : Int) + 1) with
      | Except.error e => Except.error e
      | Except.ok right_table_alias =>
        let left_table_name := aliasGet table_aliases left_table_alias
        let right_table_name := aliasGet table_aliases right_table_alias
        match alookup left_table_name data with
        | Option.none => Except.error PyError.keyError
        | some left_table_df =>
          match alookup right_table_name data with
          | Option.none => Except.error PyError.keyError
          | some right_table_df =>
            let merged := pandasMerge left_table_df.rows right_table_df.rows
            let filtered := merged.filter rowQtyGt30
            Except.ok (PdResult.count filtered.length, data)

/-- Source lines 80-95: the pandas non-join branch. `query_parts.index('FROM')`
raises `ValueError` when no exact `FROM` token exists; the following token is
the table alias; after resolution and lookup the `o_orderdate` column is
normalized in place (the catalog entry is overwritten with the normalized
frame); then `COUNT(*)`-with-date-column is tested before `GROUP BY`, else
the result is `None`. -/
def pandasElseBranch (query : String) (query_parts : List String)
    (table_aliases : AliasMap) (data : Catalog) :
    Except PyError (PdResult × Catalog) :=
  match pyIndex query_parts "FROM" with
  | Except.error e => Except.error e
  | Except.ok fi =>
    match pyGetNat query_parts (fi + 1) with
    | Except.error e => Except.error e
    | Except.ok table_alias =>
      let table_name := aliasGet table_aliases table_alias
      match alookup table_name data with
      | Option.none => Except.error PyError.keyError
      | some tdf0 =>
        let table_df := normFrame tdf0
        let data2 := updateCat data table_name table_df
        if pyContains "COUNT(*)" query = true ∧ "o_orderdate" ∈ table_df.cols then
          let filtered := table_df.rows.filter inRange1995
          Except.ok (PdResult.pair filtered.length (sumTotalprice filtered), data2)
        else if pyContains "GROUP BY" query = true then
          Except.ok (PdResult.frame (groupAggFrame table_df), data2)
        else
          Except.ok (PdResult.none, data2)

/-- Source lines 53-98: `run_experiment_pandas`. Tokenize, build the alias
dict, then dispatch on the presence of the exact token `JOIN`. Returns the
`result` value together with the catalog as left by the call (the pandas
date normalization mutates the shared `data` dict's frame in place). -/
def run_experiment_pandas (query : String) (data : Catalog) :
    Except PyError (PdResult × Catalog) :=
  match buildAliases (pySplit query) with
  | Except.error e => Except.error e
  | Except.ok table_aliases =>
    if "JOIN" ∈ pySplit query then
      pandasJoinBranch (pySplit query) table_aliases data
    else pandasElseBranch query (pySplit query) table_aliases data

/-- Source lines 120-132: the polars join branch; identical control flow to
the pandas one, but the resolved names gain the `"_polars"` suffix and the
join drops the right key column. No catalog mutation. -/
def polarsJoinBranch (query_parts : List String) (table_aliases : AliasMap)
    (data : Catalog) : Except PyError PlResult :=
  match pyIndex query_parts "JOIN" with
  | Except.error e => Except.error e
  | Except.ok j =>
    match pyGetI query_parts ((j : Int) - 1) with
    | Except.error e => Except.error e
    | Except.ok left_table_alias =>
      match pyGetI query_parts ((j : Int) + 1) with
      | Except.error e => Except.error e
      | Except.ok right_table_alias =>
        let left_table_name := aliasGet table_aliases left_table_alias ++ "_polars"
        let right_table_name := aliasGet table_aliases right_table_alias ++ "_polars"
        match alookup left_table_name data with
        | Option.none => Except.error PyError.keyError
        | some left_table =>
          match alookup right_table_name data with
          | Option.none => Except.error PyError.keyError
          | some right_table =>
            let merged := polarsJoin left_table.rows right_table.rows
            let filtered := merged.filter rowQtyGt30
            Except.ok (PlResult.count filtered.length)

/-- Source lines 133-146: the polars non-join branch; like the pandas one but
without the date-normalization write-back (the polars loader already parsed
dates at load, source lines 44-46). -/
def polarsElseBranch (query : String) (query_parts : List String)
    (table_aliases : AliasMap) (data : Catalog) : Except PyError PlResult :=
  match pyIndex query_parts "FROM" with
  | Except.error e => Except.error e
  | Except.ok fi =>
    match pyGetNat query_parts (fi + 1) with
    | Except.error e => Except.error e
    | Except.ok table_alias =>
      let table_name := aliasGet table_aliases table_alias ++ "_polars"
      match alookup table_name data with
      | Option.none => Except.error PyError.keyError
      | some table_df =>
        if pyContains "COUNT(*)" query = true ∧ "o_orderdate" ∈ table_df.cols then
          let filtered := table_df.rows.filter inRange1995
          Except.ok (PlResult.pair filtered.length (sumTotalprice filtered))
        else if pyContains "GROUP BY" query = true then
          Except.ok (PlResult.frame (groupAggFrame table_df))
        else
          Except.ok PlResult.none

/-- Source lines 106-149: `run_experiment_polars`. -/
def run_experiment_polars (query : String) (data : Catalog) :
    Except PyError PlResult :=
  match buildAliases (pySplit query) with
  | Except.error e => Except.error e
  | Except.ok table_aliases =>
    if "JOIN" ∈ pySplit query then
      polarsJoinBranch (pySplit query) table_aliases data
    else polarsElseBranch query (pySplit query) table_aliases data

/-- Source lines 100-104: `run_experiment_duckdb` submits the query text to
the connection unchanged; the engine itself is external, so the connection
is a parameter. No exception handling wraps the call. -/
def run_experiment_duckdb (conn : String → Except PyError String)
    (query : String) : Except PyError String :=
  conn query

/-- One entry of `config['experiments']`. -/
structure Experiment where
  name : String
  table : String
  query : String
deriving DecidableEq

/-- One dict appended to `results` (source lines 176-184); the elapsed-time
fields are omitted from the model. -/
structure ResultRow where
  experiment : String
  pandas_result : PdResult
  duckdb_result : String
  polars_result : PlResult
deriving DecidableEq

/-- Python `str.strip()`: drop leading and trailing whitespace. -/
def pyStrip (s : String) : String :=
  String.mk (((s.toList.dropWhile Char.isWhitespace).reverse.dropWhile
    Char.isWhitespace).reverse)

/-- Split a character stream at commas. -/
def splitCommaAux : List Char → List Char → List String
  | [], acc => [String.mk acc.reverse]
  | c :: cs, acc =>
    if c = ',' then String.mk acc.reverse :: splitCommaAux cs []
    else splitCommaAux cs (c :: acc)

/-- `[tbl.strip() for tbl in experiment['table'].split(",")]`
(source line 167). -/
def pySplitComma (s : String) : List String :=
  (splitCommaAux s.toList []).map pyStrip

/-- The inner loop of `main` (source lines 168-186): for each listed table
name that is a key of `data`, run all three engines on the experiment's
query — the loop variable itself is never passed to them — and append a
result row; a missing name only prints a message. Exceptions propagate:
nothing here catches them. The catalog is threaded because the pandas call
can mutate it. -/
def runTables (conn : String → Except PyError String) (exp : Experiment) :
    List String → Catalog → Except PyError (List ResultRow × Catalog)
  | [], data => Except.ok ([], data)
  | t :: ts, data =>
    if containsKey data t = true then
      match run_experiment_pandas exp.query data with
      | Except.error e => Except.error e
      | Except.ok (pandas_result, data2) =>
        match run_experiment_duckdb conn exp.query with
        | Except.error e => Except.error e
        | Except.ok duckdb_result =>
          match run_experiment_polars exp.query data2 with
          | Except.error e => Except.error e
          | Except.ok polars_result =>
            match runTables conn exp ts data2 with
            | Except.error e => Except.error e
            | Except.ok (rows, data3) =>
              Except.ok
                ({ experiment := exp.name, pandas_result := pandas_result,
                   duckdb_result := duckdb_result,
                   polars_result := polars_result } :: rows, data3)
    else runTables conn exp ts data

/-- The experiment loop of `main` (source lines 166-186): experiments in
order, their result rows concatenated; an uncaught exception from any cell
aborts the whole loop. -/
def runExperiments (conn : String → Except PyError String) :
    List Experiment → Catalog → Except PyError (List ResultRow × Catalog)
  | [], data => Except.ok ([], data)
  | e :: es, data =>
    match runTables conn e (pySplitComma e.table) data with
    | Except.error err => Except.error err
    | Except.ok (rows1, data1) =>
      match runExperiments conn es data1 with
      | Except.error err => Except.error err
      | Except.ok (rows2, data2) => Except.ok (rows1 ++ rows2, data2)

/-- Modelled from the spec: the SqlEngine adapter submits the original query
text to the external SQL engine (duckdb, not part of the source tree); for a
query of the `EquiJoinFilter` shape the spec defines its result as the inner
join of the two resolved tables on `o_orderkey = l_orderkey` followed by the
strict filter `l_quantity > 30`, reporting the surviving row count. -/
def sqlEquiJoinFilterCount (left right : Frame) : Nat :=
  (((left.rows.flatMap (fun a => right.rows.map (fun b => (a, b)))).filter
    (fun p => joinKeyMatch p.1 p.2 && rowQtyGt30 p.2))).length

deriving instance DecidableEq for Except

theorem alookup_append_none {β : Type} (k : String) (a b : List (String × β))
    (h : alookup k a = Option.none) : alookup k (a ++ b) = alookup k b := by
  induction a with
  | nil => rfl
  | cons p rest ih =>
    by_cases hp : p.1 = k
    · simp [alookup, hp] at h
    · simp only [List.cons_append, alookup, hp, if_neg, ite_false] at h ⊢
      exact ih h

theorem rowQtyGt30_append (a b : Row) (h : alookup "l_quantity" a = Option.none) :
    rowQtyGt30 (a ++ b) = rowQtyGt30 b := by
  unfold rowQtyGt30
  rw [alookup_append_none _ _ _ h]

theorem alookup_cons {β : Type} (k : String) (p : String × β) (l : List (String × β)) :
    alookup k (p :: l) = if p.1 = k then some p.2 else alookup k l := rfl

/-- Filtering an association list with a predicate that keeps every entry
whose key is `k` does not change the `k` lookup. -/
theorem alookup_filter_keep {β : Type} (k : String) (p : String × β → Bool)
    (hp : ∀ v, p (k, v) = true) (b : List (String × β)) :
    alookup k (b.filter p) = alookup k b := by
  induction b with
  | nil => rfl
  | cons e rest ih =>
    rw [List.filter_cons]
    by_cases hek : e.1 = k
    · have hpe : p e = true := by
        have h2 : (k, e.2) = e := by rw [← hek]
        rw [← h2]; exact hp e.2
      rw [if_pos hpe, alookup_cons, alookup_cons, if_pos hek, if_pos hek]
    · by_cases hpe : p e = true
      · rw [if_pos hpe, alookup_cons, alookup_cons, if_neg hek, if_neg hek, ih]
      · rw [if_neg hpe, alookup_cons, if_neg hek, ih]

theorem alookup_filter_lorderkey (k : String) (hk : ¬ k = "l_orderkey") (b : Row) :
    alookup k (b.filter (fun kv => ¬ kv.1 = "l_orderkey")) = alookup k b := by
  apply alookup_filter_keep
  intro v
  simp [hk]

theorem rowQtyGt30_polars_row (a b : Row) (h : alookup "l_quantity" a = Option.none) :
    rowQtyGt30 (a ++ b.filter (fun kv => ¬ kv.1 = "l_orderkey")) = rowQtyGt30 b := by
  unfold rowQtyGt30
  rw [alookup_append_none _ _ _ h, alookup_filter_lorderkey _ (by decide) b]

theorem pandasMerge_filter_length (l r : List Row)
    (hl : ∀ a ∈ l, alookup "l_quantity" a = Option.none) :
    ((pandasMerge l r).filter rowQtyGt30).length =
      ((l.flatMap (fun a => r.map (fun b => (a, b)))).filter
        (fun p => joinKeyMatch p.1 p.2 && rowQtyGt30 p.2)).length := by
  induction l with
  | nil => rfl
  | cons a l ih =>
    have ha : alookup "l_quantity" a = Option.none := hl a (List.mem_cons_self a l)
    have hl2 : ∀ x ∈ l, alookup "l_quantity" x = Option.none :=
      fun x hx => hl x (List.mem_cons_of_mem a hx)
    have hstep : pandasMerge (a :: l) r =
        ((r.filter (fun b => joinKeyMatch a b)).map (fun b => a ++ b)) ++
          pandasMerge l r := rfl
    rw [hstep, List.flatMap_cons, List.filter_append, List.filter_append,
      List.length_append, List.length_append, ih hl2]
    congr 1
    rw [List.filter_map, List.filter_map, List.length_map, List.length_map,
      List.filter_filter]
    apply congrArg List.length
    apply List.filter_congr
    intro b hb
    simp only [Function.comp]
    rw [rowQtyGt30_append a b ha]
    exact Bool.and_comm _ _

theorem polarsJoin_filter_length (l r : List Row)
    (hl : ∀ a ∈ l, alookup "l_quantity" a = Option.none) :
    ((polarsJoin l r).filter rowQtyGt30).length =
      ((l.flatMap (fun a => r.map (fun b => (a, b)))).filter
        (fun p => joinKeyMatch p.1 p.2 && rowQtyGt30 p.2)).length := by
  induction l with
  | nil => rfl
  | cons a l ih =>
    have ha : alookup "l_quantity" a = Option.none := hl a (List.mem_cons_self a l)
    have hl2 : ∀ x ∈ l, alookup "l_quantity" x = Option.none :=
      fun x hx => hl x (List.mem_cons_of_mem a hx)
    have hstep : polarsJoin (a :: l) r =
        ((r.filter (fun b => joinKeyMatch a b)).map
          (fun b => a ++ b.filter (fun kv => ¬ kv.1 = "l_orderkey"))) ++
          polarsJoin l r := rfl
    rw [hstep, List.flatMap_cons, List.filter_append, List.filter_append,
      List.length_append, List.length_append, ih hl2]
    congr 1
    rw [List.filter_map, List.filter_map, List.length_map, List.length_map,
      List.filter_filter]
    apply congrArg List.length
    apply List.filter_congr
    intro b hb
    simp only [Function.comp]
    rw [rowQtyGt30_polars_row a b ha]
    exact Bool.and_comm _ _

theorem pandas_count_eq_sql (L R : Frame)
    (hQL : ∀ a ∈ L.rows, alookup "l_quantity" a = Option.none) :
    ((pandasMerge L.rows R.rows).filter rowQtyGt30).length =
      sqlEquiJoinFilterCount L R := by
  unfold sqlEquiJoinFilterCount
  exact pandasMerge_filter_length L.rows R.rows hQL

theorem polars_count_eq_sql (L R : Frame)
    (hQL : ∀ a ∈ L.rows, alookup "l_quantity" a = Option.none) :
    ((polarsJoin L.rows R.rows).filter rowQtyGt30).length =
      sqlEquiJoinFilterCount L R := by
  unfold sqlEquiJoinFilterCount
  exact polarsJoin_filter_length L.rows R.rows hQL

/-- Claim C1: for every query classified as `EquiJoinFilter` (a `JOIN` token is
present, so both dispatchers take the join branch) and every fixed loaded
dataset (the pandas and polars catalog entries for the two resolved tables
hold the same frames, with the orders-side frame carrying no `l_quantity`
column), the pandas adapter and the polars adapter both report the surviving
row count of the inner join on `o_orderkey = l_orderkey` filtered by
`l_quantity > 30`, and this count equals the count the SQL engine returns for
the original query text (spec-modelled as `sqlEquiJoinFilterCount`). -/
theorem c1_equijoin_cross_engine_consistency
    (q : String) (cat : Catalog) (am : AliasMap) (la ra : String) (L R : Frame)
    (hJ : "JOIN" ∈ pySplit q)
    (hBA : buildAliases (pySplit q) = Except.ok am)
    (hla : pyGetI (pySplit q) (((pySplit q).indexOf "JOIN" : Int) - 1) = Except.ok la)
    (hra : pyGetI (pySplit q) (((pySplit q).indexOf "JOIN" : Int) + 1) = Except.ok ra)
    (hLp : alookup (aliasGet am la) cat = some L)
    (hRp : alookup (aliasGet am ra) cat = some R)
    (hLpol : alookup (aliasGet am la ++ "_polars") cat = some L)
    (hRpol : alookup (aliasGet am ra ++ "_polars") cat = some R)
    (hColL : "o_orderkey" ∈ L.cols) (hColR : "l_orderkey" ∈ R.cols)
    (hColRq : "l_quantity" ∈ R.cols)
    (hQL : ∀ a ∈ L.rows, alookup "l_quantity" a = Option.none) :
    run_experiment_pandas q cat =
      Except.ok (PdResult.count (sqlEquiJoinFilterCount L R), cat) ∧
    run_experiment_polars q cat =
      Except.ok (PlResult.count (sqlEquiJoinFilterCount L R)) := by
  have hidx : pyIndex (pySplit q) "JOIN" =
      Except.ok ((pySplit q).indexOf "JOIN") := by
    unfold pyIndex; rw [if_pos hJ]
  constructor
  · simp only [run_experiment_pandas, hBA]
    rw [if_pos hJ]
    simp only [pandasJoinBranch, hidx, hla, hra, hLp, hRp]
    rw [pandas_count_eq_sql L R hQL]
  · simp only [run_experiment_polars, hBA]
    rw [if_pos hJ]
    simp only [polarsJoinBranch, hidx, hla, hra, hLpol, hRpol]
    rw [polars_count_eq_sql L R hQL]

/-- Orders-side witness frame for the cross-engine consistency claim. -/
def ordersW : Frame :=
  Frame.mk ["o_orderkey"]
    [[("o_orderkey", Val.int 1)], [("o_orderkey", Val.int 2)],
     [("o_orderkey", Val.int 3)]]

/-- Lineitem-side witness frame with quantities 10, 31 and 45. -/
def lineitemW : Frame :=
  Frame.mk ["l_orderkey", "l_quantity"]
    [[("l_orderkey", Val.int 1), ("l_quantity", Val.int 10)],
     [("l_orderkey", Val.int 2), ("l_quantity", Val.int 31)],
     [("l_orderkey", Val.int 3), ("l_quantity", Val.int 45)]]

/-- Catalog as `main` builds it: pandas copies plus `_polars` copies. -/
def catW : Catalog :=
  [("orders", ordersW), ("lineitem", lineitemW),
   ("orders_polars", ordersW), ("lineitem_polars", lineitemW)]

/-- An `EquiJoinFilter`-shaped query over the witness catalog. -/
def qJoinW : String :=
  "SELECT * FROM orders o JOIN lineitem l ON o_orderkey = l_orderkey WHERE l_quantity > 30"

theorem c1_equijoin_cross_engine_consistency_witness :
    run_experiment_pandas qJoinW catW =
      Except.ok (PdResult.count (sqlEquiJoinFilterCount ordersW lineitemW), catW) ∧
    run_experiment_polars qJoinW catW =
      Except.ok (PlResult.count (sqlEquiJoinFilterCount ordersW lineitemW)) :=
  c1_equijoin_cross_engine_consistency qJoinW catW
    [("l", "lineitem"), ("o", "orders")] "o" "lineitem" ordersW lineitemW
    (by decide) (by rfl) (by rfl) (by rfl) (by rfl) (by rfl) (by rfl) (by rfl)
    (by decide) (by decide) (by decide) (by decide)

theorem normFrame_cols (f : Frame) : (normFrame f).cols = f.cols := by
  unfold normFrame
  split <;> rfl

/-- Does an engine call end in a join-shape (bare count) result? -/
def isCountRes : Except PyError (PdResult × Catalog) → Bool
  | Except.ok (PdResult.count _, _) => true
  | _ => false

/-- Does an engine call end in a count-date-range (pair) result? -/
def isPairRes : Except PyError (PdResult × Catalog) → Bool
  | Except.ok (PdResult.pair _ _, _) => true
  | _ => false

/-- Does an engine call end in a group-aggregate (frame) result? -/
def isFrameRes : Except PyError (PdResult × Catalog) → Bool
  | Except.ok (PdResult.frame _, _) => true
  | _ => false

/-- Orders-side frame for the strict-filter scenario. -/
def ordersS : Frame :=
  Frame.mk ["o_orderkey"]
    [[("o_orderkey", Val.int 7)], [("o_orderkey", Val.int 8)],
     [("o_orderkey", Val.int 9)]]

/-- Lineitem-side frame with quantities 10, 31 and 45 matched to the three
orders rows. -/
def lineitemS : Frame :=
  Frame.mk ["l_orderkey", "l_quantity"]
    [[("l_orderkey", Val.int 7), ("l_quantity", Val.int 10)],
     [("l_orderkey", Val.int 8), ("l_quantity", Val.int 31)],
     [("l_orderkey", Val.int 9), ("l_quantity", Val.int 45)]]

/-- Catalog for the strict-filter scenario. -/
def catS : Catalog :=
  [("orders", ordersS), ("lineitem", lineitemS),
   ("orders_polars", ordersS), ("lineitem_polars", lineitemS)]

/-- The scenario's join query. -/
def qJoinS : String :=
  "SELECT o_orderkey FROM orders o JOIN lineitem l ON o_orderkey = l_orderkey WHERE l_quantity > 30"

/-- Claim C8: the quantity filter of the `EquiJoinFilter` shape is strictly
greater-than 30 — a row with `l_quantity` exactly 30 is excluded while 31
passes — and joining lineitem rows with quantities 10, 31 and 45 to matching
orders rows on `o_orderkey = l_orderkey` yields a filtered row count of
exactly 2 in both the pandas and the polars adapter. -/
theorem c8_strict_filter_scenario :
    run_experiment_pandas qJoinS catS = Except.ok (PdResult.count 2, catS) ∧
    run_experiment_polars qJoinS catS = Except.ok (PlResult.count 2) ∧
    rowQtyGt30 [("l_quantity", Val.int 30)] = false ∧
    rowQtyGt30 [("l_quantity", Val.int 31)] = true :=
  ⟨rfl, rfl, rfl, rfl⟩

/-- Claim C3 (code bug in the source): a query whose token sequence ends with
a `FROM` token makes both dispatchers evaluate the out-of-bounds subscript
`query_parts[i + 1]` inside the alias scan, raising `IndexError` — an
out-of-bounds access, not a malformed-query error. -/
theorem c3_dangling_from_index_error :
    run_experiment_pandas "SELECT * FROM" [] = Except.error PyError.indexError ∧
    run_experiment_polars "SELECT * FROM" [] = Except.error PyError.indexError ∧
    buildAliases (pySplit "SELECT * FROM") = Except.error PyError.indexError ∧
    run_experiment_pandas "SELECT * FROM orders o JOIN" [] =
      Except.error PyError.indexError :=
  ⟨rfl, rfl, rfl, rfl⟩

/-- Frame with no date column, used by the unsupported-query inputs. -/
def ordersPlain : Frame :=
  Frame.mk ["o_orderkey"] [[("o_orderkey", Val.int 1)]]

/-- A small catalog holding pandas and polars copies of `orders`. -/
def catPlain : Catalog :=
  [("orders", ordersPlain), ("orders_polars", ordersPlain)]

/-- Claim C6 (code bug in the source): a query containing none of `JOIN`,
`GROUP BY`, `COUNT(*)` and also lacking a `FROM` token does not classify as
`Unsupported`: both dispatchers raise `ValueError` from
`query_parts.index('FROM')` instead of returning an empty result. A query
that does contain `FROM` over a loaded table returns the empty (`None`)
result as claimed. -/
theorem c6_no_from_value_error :
    run_experiment_pandas "SELECT 1" catPlain = Except.error PyError.valueError ∧
    run_experiment_polars "SELECT 1" catPlain = Except.error PyError.valueError ∧
    run_experiment_pandas "SELECT o_orderkey FROM orders" catPlain =
      Except.ok (PdResult.none, catPlain) ∧
    run_experiment_polars "SELECT o_orderkey FROM orders" catPlain =
      Except.ok PlResult.none :=
  ⟨rfl, rfl, rfl, rfl⟩

/-- Orders frame whose dates are already parsed, for the priority
counterexample. -/
def ordersDate : Frame :=
  Frame.mk ["o_orderkey", "o_orderdate", "o_totalprice"]
    [[("o_orderkey", Val.int 1), ("o_orderdate", Val.date 1995 6 15),
      ("o_totalprice", Val.int 100)]]

/-- Catalog for the priority counterexample. -/
def catP : Catalog := [("orders", ordersDate), ("orders_polars", ordersDate)]

/-- A query containing both `COUNT(*)` and `GROUP BY` and no `JOIN`. -/
def qP : String := "SELECT COUNT(*) FROM orders GROUP BY o_orderdate"

/-- Claim C2 counterexample: a query containing both `GROUP BY` and
`COUNT(*)` (and no `JOIN`), over a table whose schema has the date column,
classifies as `CountDateRange` — both engines return the `(count, sum)` pair
result, not the group-aggregate frame the claim requires. -/
theorem c2_priority_counterexample :
    run_experiment_pandas qP catP = Except.ok (PdResult.pair 1 100, catP) ∧
    isFrameRes (run_experiment_pandas qP catP) = false ∧
    run_experiment_polars qP catP = Except.ok (PlResult.pair 1 100) :=
  ⟨rfl, rfl, rfl⟩

/-- Claim C2 as amended: classification evaluates, in order: (1) presence of
the exact token `JOIN` → `EquiJoinFilter`; (2) otherwise, presence of the
substring `COUNT(*)` together with a date column in the resolved table's
schema → `CountDateRange`; (3) otherwise presence of the substring
`GROUP BY` → `GroupAggregate`; (4) otherwise `Unsupported`. In particular a
query containing both `GROUP BY` and `COUNT(*)` (and no `JOIN`) against a
table with a date column yields the `CountDateRange` pair result in both
dataframe engines. -/
theorem c2_priority_amended
    (q : String) (cat : Catalog) (am : AliasMap) (ta : String) (fr frp : Frame)
    (hJ : "JOIN" ∉ pySplit q)
    (hBA : buildAliases (pySplit q) = Except.ok am)
    (hFrom : "FROM" ∈ pySplit q)
    (hTa : pyGetNat (pySplit q) ((pySplit q).indexOf "FROM" + 1) = Except.ok ta)
    (hLook : alookup (aliasGet am ta) cat = some fr)
    (hCol : "o_orderdate" ∈ fr.cols)
    (hLookP : alookup (aliasGet am ta ++ "_polars") cat = some frp)
    (hColP : "o_orderdate" ∈ frp.cols)
    (hCnt : pyContains "COUNT(*)" q = true)
    (hGrp : pyContains "GROUP BY" q = true) :
    run_experiment_pandas q cat =
      Except.ok (PdResult.pair ((normFrame fr).rows.filter inRange1995).length
          (sumTotalprice ((normFrame fr).rows.filter inRange1995)),
        updateCat cat (aliasGet am ta) (normFrame fr)) ∧
    run_experiment_polars q cat =
      Except.ok (PlResult.pair (frp.rows.filter inRange1995).length
        (sumTotalprice (frp.rows.filter inRange1995))) := by
  have hidx : pyIndex (pySplit q) "FROM" =
      Except.ok ((pySplit q).indexOf "FROM") := by
    unfold pyIndex; rw [if_pos hFrom]
  constructor
  · simp only [run_experiment_pandas, hBA]
    rw [if_neg hJ]
    simp only [pandasElseBranch, hidx, hTa, hLook]
    rw [if_pos ⟨hCnt, by rw [normFrame_cols]; exact hCol⟩]
  · simp only [run_experiment_polars, hBA]
    rw [if_neg hJ]
    simp only [polarsElseBranch, hidx, hTa, hLookP]
    rw [if_pos ⟨hCnt, hColP⟩]

theorem c2_priority_amended_witness :
    run_experiment_pandas qP catP =
      Except.ok (PdResult.pair ((normFrame ordersDate).rows.filter inRange1995).length
          (sumTotalprice ((normFrame ordersDate).rows.filter inRange1995)),
        updateCat catP (aliasGet [] "orders") (normFrame ordersDate)) ∧
    run_experiment_polars qP catP =
      Except.ok (PlResult.pair (ordersDate.rows.filter inRange1995).length
        (sumTotalprice (ordersDate.rows.filter inRange1995))) :=
  c2_priority_amended qP catP [] "orders" ordersDate ordersDate
    (by decide) (by rfl) (by decide) (by rfl) (by rfl) (by decide) (by rfl)
    (by decide) (by rfl) (by rfl)

/-- Does a polars engine call end in a join-shape (bare count) result? -/
def isCountResP : Except PyError PlResult → Bool
  | Except.ok (PlResult.count _) => true
  | _ => false

/-- Does a polars engine call end in a count-date-range (pair) result? -/
def isPairResP : Except PyError PlResult → Bool
  | Except.ok (PlResult.pair _ _) => true
  | _ => false

/-- Does a polars engine call end in a group-aggregate (frame) result? -/
def isFrameResP : Except PyError PlResult → Bool
  | Except.ok (PlResult.frame _) => true
  | _ => false

theorem pandasJoinBranch_not_frame (parts : List String) (am : AliasMap)
    (cat : Catalog) : isFrameRes (pandasJoinBranch parts am cat) = false := by
  unfold pandasJoinBranch
  dsimp only
  repeat' split
  all_goals rfl

theorem pandasJoinBranch_not_pair (parts : List String) (am : AliasMap)
    (cat : Catalog) : isPairRes (pandasJoinBranch parts am cat) = false := by
  unfold pandasJoinBranch
  dsimp only
  repeat' split
  all_goals rfl

theorem pandasElseBranch_not_count (q : String) (parts : List String)
    (am : AliasMap) (cat : Catalog) :
    isCountRes (pandasElseBranch q parts am cat) = false := by
  unfold pandasElseBranch
  dsimp only
  repeat' split
  all_goals rfl

theorem pandasElseBranch_not_frame (q : String) (parts : List String)
    (am : AliasMap) (cat : Catalog) (hG : pyContains "GROUP BY" q = false) :
    isFrameRes (pandasElseBranch q parts am cat) = false := by
  unfold pandasElseBranch
  dsimp only
  repeat' split
  all_goals first | rfl | simp_all

theorem pandasElseBranch_not_pair (q : String) (parts : List String)
    (am : AliasMap) (cat : Catalog) (hC : pyContains "COUNT(*)" q = false) :
    isPairRes (pandasElseBranch q parts am cat) = false := by
  unfold pandasElseBranch
  dsimp only
  repeat' split
  all_goals first | rfl | simp_all

theorem polarsJoinBranch_not_frame (parts : List String) (am : AliasMap)
    (cat : Catalog) : isFrameResP (polarsJoinBranch parts am cat) = false := by
  unfold polarsJoinBranch
  dsimp only
  repeat' split
  all_goals rfl

theorem polarsJoinBranch_not_pair (parts : List String) (am : AliasMap)
    (cat : Catalog) : isPairResP (polarsJoinBranch parts am cat) = false := by
  unfold polarsJoinBranch
  dsimp only
  repeat' split
  all_goals rfl

theorem polarsElseBranch_not_count (q : String) (parts : List String)
    (am : AliasMap) (cat : Catalog) :
    isCountResP (polarsElseBranch q parts am cat) = false := by
  unfold polarsElseBranch
  dsimp only
  repeat' split
  all_goals rfl

theorem polarsElseBranch_not_frame (q : String) (parts : List String)
    (am : AliasMap) (cat : Catalog) (hG : pyContains "GROUP BY" q = false) :
    isFrameResP (polarsElseBranch q parts am cat) = false := by
  unfold polarsElseBranch
  dsimp only
  repeat' split
  all_goals first | rfl | simp_all

theorem polarsElseBranch_not_pair (q : String) (parts : List String)
    (am : AliasMap) (cat : Catalog) (hC : pyContains "COUNT(*)" q = false) :
    isPairResP (polarsElseBranch q parts am cat) = false := by
  unfold polarsElseBranch
  dsimp only
  repeat' split
  all_goals first | rfl | simp_all

/-- Lineitem frame with a single quantity-40 row, for the case-sensitivity
counterexample. -/
def lineitemQ40 : Frame :=
  Frame.mk ["l_orderkey", "l_quantity"]
    [[("l_orderkey", Val.int 1), ("l_quantity", Val.int 40)]]

/-- Catalog for the case-sensitivity counterexample. -/
def catCase : Catalog :=
  [("orders", ordersPlain), ("lineitem", lineitemQ40),
   ("orders_polars", ordersPlain), ("lineitem_polars", lineitemQ40)]

/-- The join query with an upper-case `JOIN`. -/
def qCaseUp : String := "SELECT * FROM orders o JOIN lineitem l ON x"

/-- The same query written with a lower-case `join`. -/
def qCaseLo : String := "SELECT * FROM orders o join lineitem l ON x"

/-- Claim C7 counterexample: a query written with lower-case `join` is NOT
classified the same way as its upper-case form — with `JOIN` both engines
take the join branch and return a count; with `join` they fall through to
the `FROM` branch and return the empty result. -/
theorem c7_lowercase_join_counterexample :
    run_experiment_pandas qCaseUp catCase = Except.ok (PdResult.count 1, catCase) ∧
    run_experiment_pandas qCaseLo catCase = Except.ok (PdResult.none, catCase) ∧
    run_experiment_polars qCaseUp catCase = Except.ok (PlResult.count 1) ∧
    run_experiment_polars qCaseLo catCase = Except.ok PlResult.none :=
  ⟨rfl, rfl, rfl, rfl⟩

/-- Claim C7 as amended: only the alias-resolution scan matches `FROM`/`JOIN`
case-insensitively; the classification branch tests are case-sensitive — a
query without the exact upper-case token `JOIN` is never classified as the
join shape (so a lower-case `join` query classifies differently from its
upper-case form), and `GROUP BY` / `COUNT(*)` detection is case-sensitive
substring matching (no `GROUP BY` substring → never a group-aggregate frame
result; no `COUNT(*)` substring → never a count-date-range pair result), in
both dataframe engines. -/
theorem c7_case_sensitivity_amended (q : String) (cat : Catalog) :
    ("JOIN" ∉ pySplit q → isCountRes (run_experiment_pandas q cat) = false) ∧
    (pyContains "GROUP BY" q = false →
      isFrameRes (run_experiment_pandas q cat) = false) ∧
    (pyContains "COUNT(*)" q = false →
      isPairRes (run_experiment_pandas q cat) = false) ∧
    ("JOIN" ∉ pySplit q → isCountResP (run_experiment_polars q cat) = false) ∧
    (pyContains "GROUP BY" q = false →
      isFrameResP (run_experiment_polars q cat) = false) ∧
    (pyContains "COUNT(*)" q = false →
      isPairResP (run_experiment_polars q cat) = false) := by
  refine ⟨?_, ?_, ?_, ?_, ?_, ?_⟩
  · intro hJ
    simp only [run_experiment_pandas]
    cases hb : buildAliases (pySplit q) with
    | error e => rfl
    | ok am =>
      dsimp only
      rw [if_neg hJ]
      exact pandasElseBranch_not_count q (pySplit q) am cat
  · intro hG
    simp only [run_experiment_pandas]
    cases hb : buildAliases (pySplit q) with
    | error e => rfl
    | ok am =>
      dsimp only
      by_cases hj : "JOIN" ∈ pySplit q
      · rw [if_pos hj]
        exact pandasJoinBranch_not_frame (pySplit q) am cat
      · rw [if_neg hj]
        exact pandasElseBranch_not_frame q (pySplit q) am cat hG
  · intro hC
    simp only [run_experiment_pandas]
    cases hb : buildAliases (pySplit q) with
    | error e => rfl
    | ok am =>
      dsimp only
      by_cases hj : "JOIN" ∈ pySplit q
      · rw [if_pos hj]
        exact pandasJoinBranch_not_pair (pySplit q) am cat
      · rw [if_neg hj]
        exact pandasElseBranch_not_pair q (pySplit q) am cat hC
  · intro hJ
    simp only [run_experiment_polars]
    cases hb : buildAliases (pySplit q) with
    | error e => rfl
    | ok am =>
      dsimp only
      rw [if_neg hJ]
      exact polarsElseBranch_not_count q (pySplit q) am cat
  · intro hG
    simp only [run_experiment_polars]
    cases hb : buildAliases (pySplit q) with
    | error e => rfl
    | ok am =>
      dsimp only
      by_cases hj : "JOIN" ∈ pySplit q
      · rw [if_pos hj]
        exact polarsJoinBranch_not_frame (pySplit q) am cat
      · rw [if_neg hj]
        exact polarsElseBranch_not_frame q (pySplit q) am cat hG
  · intro hC
    simp only [run_experiment_polars]
    cases hb : buildAliases (pySplit q) with
    | error e => rfl
    | ok am =>
      dsimp only
      by_cases hj : "JOIN" ∈ pySplit q
      · rw [if_pos hj]
        exact polarsJoinBranch_not_pair (pySplit q) am cat
      · rw [if_neg hj]
        exact polarsElseBranch_not_pair q (pySplit q) am cat hC

theorem c7_case_sensitivity_amended_witness :
    isCountRes (run_experiment_pandas qCaseLo catCase) = false ∧
    isFrameRes (run_experiment_pandas qCaseLo catCase) = false ∧
    isPairRes (run_experiment_pandas qCaseLo catCase) = false ∧
    isCountResP (run_experiment_polars qCaseLo catCase) = false ∧
    isFrameResP (run_experiment_polars qCaseLo catCase) = false ∧
    isPairResP (run_experiment_polars qCaseLo catCase) = false := by
  have h := c7_case_sensitivity_amended qCaseLo catCase
  exact ⟨h.1 (by decide), h.2.1 (by decide), h.2.2.1 (by decide),
    h.2.2.2.1 (by decide), h.2.2.2.2.1 (by decide), h.2.2.2.2.2 (by decide)⟩

/-- Orders frame loaded with still-textual dates. -/
def ordersText : Frame :=
  Frame.mk ["o_orderkey", "o_orderdate", "o_totalprice"]
    [[("o_orderkey", Val.int 1), ("o_orderdate", Val.dateText 1995 6 15),
      ("o_totalprice", Val.int 100)]]

/-- The same frame after the in-place `pd.to_datetime` normalization. -/
def ordersTextNorm : Frame :=
  Frame.mk ["o_orderkey", "o_orderdate", "o_totalprice"]
    [[("o_orderkey", Val.int 1), ("o_orderdate", Val.date 1995 6 15),
      ("o_totalprice", Val.int 100)]]

/-- Catalog before any experiment runs. -/
def catMut : Catalog := [("orders", ordersText), ("orders_polars", ordersText)]

/-- Catalog after one pandas count-query execution. -/
def catMutAfter : Catalog :=
  [("orders", ordersTextNorm), ("orders_polars", ordersText)]

/-- A count query against the text-dated orders table. -/
def qMut : String := "SELECT COUNT(*) FROM orders WHERE o_orderdate BETWEEN a AND b"

/-- Claim C5 counterexample: running one query through the pandas executor
changes the stored `orders` table in place — the catalog after execution
differs from the catalog left by the loader, so a loaded table is NOT
unchanged after catalog population. -/
theorem c5_mutation_counterexample :
    run_experiment_pandas qMut catMut =
      Except.ok (PdResult.pair 1 100, catMutAfter) ∧
    ¬ (catMutAfter = catMut) :=
  ⟨rfl, by decide⟩

/-- Any successful pandas run leaves the catalog unchanged (join branch) or
replaces exactly one existing entry with its date-normalized frame. -/
theorem run_pandas_catalog_shape (q : String) (cat : Catalog)
    (r : PdResult) (cat2 : Catalog)
    (h : run_experiment_pandas q cat = Except.ok (r, cat2)) :
    cat2 = cat ∨
      ∃ name fr, alookup name cat = some fr ∧
        cat2 = updateCat cat name (normFrame fr) := by
  simp only [run_experiment_pandas] at h
  cases hb : buildAliases (pySplit q) with
  | error e => rw [hb] at h; cases h
  | ok am =>
    rw [hb] at h
    dsimp only at h
    by_cases hj : "JOIN" ∈ pySplit q
    · rw [if_pos hj] at h
      unfold pandasJoinBranch at h
      dsimp only at h
      repeat' split at h
      all_goals try cases h
      all_goals exact Or.inl rfl
    · rw [if_neg hj] at h
      unfold pandasElseBranch at h
      dsimp only at h
      repeat' split at h
      all_goals try cases h
      all_goals refine Or.inr ⟨_, _, ?_, rfl⟩
      all_goals assumption

/-- Claim C5 as amended: the pandas executor date normalization is the only
mutation query execution performs, but it happens during every non-join
query execution, not once after load — any successful
`run_experiment_pandas` call either leaves the catalog unchanged (join
branch) or replaces exactly one existing entry with its date-normalized
frame. -/
theorem c5_mutation_only_datenorm_amended (q : String) (cat : Catalog)
    (r : PdResult) (cat2 : Catalog)
    (h : run_experiment_pandas q cat = Except.ok (r, cat2)) :
    cat2 = cat ∨
      ∃ name fr, alookup name cat = some fr ∧
        cat2 = updateCat cat name (normFrame fr) :=
  run_pandas_catalog_shape q cat r cat2 h

theorem c5_mutation_only_datenorm_amended_witness :
    catMutAfter = catMut ∨
      ∃ name fr, alookup name catMut = some fr ∧
        catMutAfter = updateCat catMut name (normFrame fr) :=
  c5_mutation_only_datenorm_amended qMut catMut (PdResult.pair 1 100)
    catMutAfter rfl

/-- Does the scan position at the head of this token list record a binding
for alias `al`? It does when the head token upper-cases to `FROM`/`JOIN`,
the next token (a table name) exists, and the token after that is `al`
itself and not an excluded clause keyword; the recorded table is the next
token. -/
def lastRecHere (al : String) : List String → Option String
  | p :: tbl :: a2 :: _ =>
    if (pyUpper p = "FROM" ∨ pyUpper p = "JOIN") ∧ a2 = al ∧ ¬ a2 ∈ excludedAliases
    then some tbl else Option.none
  | _ => Option.none

/-- The table recorded for alias `al` by the LAST alias-scan position that
binds `al`, if any. Later bindings shadow earlier ones, exactly like the
dict overwrite in the source. -/
def lastRec (al : String) : List String → Option String
  | [] => Option.none
  | p :: rest =>
    match lastRec al rest with
    | some t => some t
    | Option.none => lastRecHere al (p :: rest)

theorem lastRec_cons (al p : String) (rest : List String) :
    lastRec al (p :: rest) =
      (match lastRec al rest with
       | some t => some t
       | Option.none => lastRecHere al (p :: rest)) := rfl

theorem lastRecHere_not_det (al p : String) (rest : List String)
    (hdet : ¬ (pyUpper p = "FROM" ∨ pyUpper p = "JOIN")) :
    lastRecHere al (p :: rest) = Option.none := by
  cases rest with
  | nil => rfl
  | cons tbl rest2 =>
    cases rest2 with
    | nil => rfl
    | cons a2 rest3 =>
      show (if (pyUpper p = "FROM" ∨ pyUpper p = "JOIN") ∧ a2 = al ∧
          ¬ a2 ∈ excludedAliases then some tbl else Option.none) = Option.none
      rw [if_neg (fun hc => hdet hc.1)]

theorem buildAliasesAux_alookup (al : String) (l : List String) :
    ∀ (m m2 : AliasMap), buildAliasesAux l m = Except.ok m2 →
      alookup al m2 = (match lastRec al l with
        | some t => some t
        | Option.none => alookup al m) := by
  induction l with
  | nil =>
    intro m m2 h
    cases h
    rfl
  | cons p rest ih =>
    intro m m2 h
    rw [buildAliasesAux.eq_def] at h
    dsimp only at h
    rw [lastRec_cons]
    by_cases hdet : pyUpper p = "FROM" ∨ pyUpper p = "JOIN"
    · rw [if_pos hdet] at h
      cases rest with
      | nil => cases h
      | cons tbl rest2 =>
        have ih2 := ih _ m2 h
        cases hr : lastRec al (tbl :: rest2) with
        | some t =>
          rw [hr] at ih2
          exact ih2
        | none =>
          rw [hr] at ih2
          cases rest2 with
          | nil => exact ih2
          | cons a2 rest3 =>
            dsimp only at ih2
            by_cases hcond : a2 = al ∧ ¬ a2 ∈ excludedAliases
            · have hgoal : lastRecHere al (p :: tbl :: a2 :: rest3) = some tbl := by
                show (if (pyUpper p = "FROM" ∨ pyUpper p = "JOIN") ∧ a2 = al ∧
                    ¬ a2 ∈ excludedAliases then some tbl else Option.none) = some tbl
                rw [if_pos ⟨hdet, hcond⟩]
              rw [hgoal]
              rw [if_neg hcond.2] at ih2
              rw [ih2, alookup_cons, if_pos hcond.1]
            · have hgoal : lastRecHere al (p :: tbl :: a2 :: rest3) =
                  Option.none := by
                show (if (pyUpper p = "FROM" ∨ pyUpper p = "JOIN") ∧ a2 = al ∧
                    ¬ a2 ∈ excludedAliases then some tbl else Option.none) =
                  Option.none
                rw [if_neg (fun hc => hcond hc.2)]
              rw [hgoal]
              by_cases hexc : a2 ∈ excludedAliases
              · rw [if_pos hexc] at ih2
                exact ih2
              · rw [if_neg hexc] at ih2
                have hne : ¬ a2 = al := fun hc => hcond ⟨hc, hexc⟩
                rw [ih2, alookup_cons, if_neg hne]
    · rw [if_neg hdet] at h
      have ih2 := ih m m2 h
      rw [lastRecHere_not_det al p rest hdet]
      cases hr : lastRec al rest with
      | some t =>
        rw [hr] at ih2
        exact ih2
      | none =>
        rw [hr] at ih2
        exact ih2

/-- Claim C10: the clause-keyword exclusion check on alias candidates is
case-sensitive over the exact set `{WHERE, ON, ORDER, GROUP}` — a lower-case
clause keyword such as `where` following a `FROM`/`JOIN` table token passes
the check and is recorded in the alias map as an alias for that table
(its last such binding, since dict overwrites win). -/
theorem c10_lowercase_alias_recorded (parts : List String) (m : AliasMap)
    (kw tbl : String)
    (hBA : buildAliases parts = Except.ok m)
    (hkw : kw ∈ ["where", "on", "order", "group"])
    (hlast : lastRec kw parts = some tbl) :
    alookup kw m = some tbl := by
  have h := buildAliasesAux_alookup kw parts [] m hBA
  rw [hlast] at h
  exact h

theorem c10_lowercase_alias_recorded_witness :
    alookup "where" [("where", "orders")] = some "orders" :=
  c10_lowercase_alias_recorded (pySplit "SELECT a FROM orders where a")
    [("where", "orders")] "where" "orders" (by rfl) (by decide) (by rfl)

/-- A duckdb connection stub whose every call raises. -/
def duckFail : String → Except PyError String :=
  fun _ => Except.error PyError.valueError

/-- First experiment of the abort counterexample. -/
def expA : Experiment := Experiment.mk "exp1" "orders" "SELECT o_orderkey FROM orders"

/-- Second experiment of the abort counterexample (never reached). -/
def expB : Experiment := Experiment.mk "exp2" "orders" "SELECT o_orderkey FROM orders"

/-- Claim C4 counterexample: when the duckdb call of the first experiment
raises, the whole experiment loop aborts with that exception — no result row
is produced for either experiment, instead of one missing cell and continued
execution of the remaining experiments and engines. -/
theorem c4_exception_aborts_counterexample :
    runExperiments duckFail [expA, expB] catPlain =
      Except.error PyError.valueError :=
  rfl

/-- Claim C4 as amended: no exception is caught at the collector layer — an
exception raised by an underlying engine call propagates out of the
experiment loop of `main` and aborts the remaining experiments and engines
(here: the duckdb call of the first experiment raises, after the pandas call
succeeded, and the whole run terminates with that exception; nothing is
recorded for any cell). Only a table name missing from the catalog is
handled, by skipping that iteration. -/
theorem c4_exception_propagates_amended
    (conn : String → Except PyError String) (e1 : Experiment)
    (es : List Experiment) (cat : Catalog) (t : String) (ts : List String)
    (pr : PdResult) (cat2 : Catalog) (err : PyError)
    (hts : pySplitComma e1.table = t :: ts)
    (hmem : containsKey cat t = true)
    (hp : run_experiment_pandas e1.query cat = Except.ok (pr, cat2))
    (hd : conn e1.query = Except.error err) :
    runExperiments conn (e1 :: es) cat = Except.error err := by
  have hrt : runTables conn e1 (t :: ts) cat = Except.error err := by
    rw [runTables.eq_def]
    dsimp only
    rw [if_pos hmem, hp]
    dsimp only
    rw [run_experiment_duckdb, hd]
  rw [runExperiments.eq_def]
  dsimp only
  rw [hts, hrt]

theorem c4_exception_propagates_amended_witness :
    runExperiments duckFail [expA] catPlain = Except.error PyError.valueError :=
  c4_exception_propagates_amended duckFail expA [] catPlain "orders" []
    PdResult.none catPlain PyError.valueError (by rfl) (by rfl) (by rfl) (by rfl)

theorem toDatetimeVal_idem (v : Val) :
    toDatetimeVal (toDatetimeVal v) = toDatetimeVal v := by
  cases v <;> rfl

theorem normRow_idem (r : Row) : normRow (normRow r) = normRow r := by
  unfold normRow
  rw [List.map_map]
  apply List.map_congr_left
  intro kv _
  by_cases hk : kv.1 = "o_orderdate"
  · simp only [Function.comp, hk, if_pos, ite_true, toDatetimeVal_idem]
  · simp only [Function.comp, hk, if_neg, ite_false]

theorem normFrame_idem (f : Frame) : normFrame (normFrame f) = normFrame f := by
  unfold normFrame
  by_cases hc : "o_orderdate" ∈ f.cols
  · rw [if_pos hc]
    dsimp only
    rw [if_pos hc, List.map_map]
    have : f.rows.map (normRow ∘ normRow) = f.rows.map normRow := by
      apply List.map_congr_left
      intro r _
      exact normRow_idem r
    rw [this]
  · rw [if_neg hc, if_neg hc]

theorem alookup_updateCat_self (c : Catalog) (k : String) (v w : Frame)
    (h : alookup k c = some v) : alookup k (updateCat c k w) = some w := by
  induction c with
  | nil => cases h
  | cons p rest ih =>
    unfold updateCat
    rw [List.map_cons]
    by_cases hp : p.1 = k
    · rw [if_pos hp, alookup_cons, if_pos rfl]
    · rw [if_neg hp, alookup_cons, if_neg hp]
      rw [alookup_cons, if_neg hp] at h
      exact ih h

theorem containsKey_updateCat (c : Catalog) (k n : String) (w : Frame) :
    containsKey (updateCat c n w) k = containsKey c k := by
  induction c with
  | nil => rfl
  | cons p rest ih =>
    unfold containsKey at ih ⊢
    unfold updateCat at ih ⊢
    rw [List.map_cons]
    by_cases hp : p.1 = n
    · subst hp
      rw [if_pos rfl, alookup_cons, alookup_cons]
      by_cases hk : p.1 = k
      · rw [if_pos hk, if_pos hk]
        rfl
      · rw [if_neg hk, if_neg hk]
        exact ih
    · rw [if_neg hp, alookup_cons, alookup_cons]
      by_cases hk : p.1 = k
      · rw [if_pos hk, if_pos hk]
      · rw [if_neg hk, if_neg hk]
        exact ih

theorem updateCat_updateCat (c : Catalog) (k : String) (v w : Frame) :
    updateCat (updateCat c k v) k w = updateCat c k w := by
  unfold updateCat
  rw [List.map_map]
  apply List.map_congr_left
  intro p _
  by_cases hp : p.1 = k
  · simp only [Function.comp, hp, ite_true, if_pos rfl]
  · simp only [Function.comp, hp, ite_false, if_neg hp]

theorem run_pandas_containsKey (q : String) (cat : Catalog) (r : PdResult)
    (cat2 : Catalog) (h : run_experiment_pandas q cat = Except.ok (r, cat2))
    (k : String) : containsKey cat2 k = containsKey cat k := by
  rcases run_pandas_catalog_shape q cat r cat2 h with hEq | ⟨n, fr, _, hEq⟩
  · rw [hEq]
  · rw [hEq]
    exact containsKey_updateCat cat k n (normFrame fr)

theorem run_pandas_stable (q : String) (cat cat2 : Catalog) (r : PdResult)
    (h : run_experiment_pandas q cat = Except.ok (r, cat2)) :
    run_experiment_pandas q cat2 = Except.ok (r, cat2) := by
  simp only [run_experiment_pandas] at h ⊢
  cases hb : buildAliases (pySplit q) with
  | error e => rw [hb] at h; cases h
  | ok am =>
    rw [hb] at h
    dsimp only at h ⊢
    by_cases hj : "JOIN" ∈ pySplit q
    · rw [if_pos hj] at h ⊢
      unfold pandasJoinBranch at h ⊢
      dsimp only at h ⊢
      cases h1 : pyIndex (pySplit q) "JOIN" with
      | error e => rw [h1] at h; cases h
      | ok j =>
        rw [h1] at h
        dsimp only at h ⊢
        cases h2 : pyGetI (pySplit q) ((j : Int) - 1) with
        | error e => rw [h2] at h; cases h
        | ok la =>
          rw [h2] at h
          dsimp only at h ⊢
          cases h3 : pyGetI (pySplit q) ((j : Int) + 1) with
          | error e => rw [h3] at h; cases h
          | ok ra =>
            rw [h3] at h
            dsimp only at h ⊢
            cases h4 : alookup (aliasGet am la) cat with
            | none => rw [h4] at h; cases h
            | some L =>
              rw [h4] at h
              dsimp only at h
              cases h5 : alookup (aliasGet am ra) cat with
              | none => rw [h5] at h; cases h
              | some R =>
                rw [h5] at h
                dsimp only at h
                cases h
                rw [h4, h5]
    · rw [if_neg hj] at h ⊢
      unfold pandasElseBranch at h ⊢
      dsimp only at h ⊢
      cases h1 : pyIndex (pySplit q) "FROM" with
      | error e => rw [h1] at h; cases h
      | ok fi =>
        rw [h1] at h
        dsimp only at h ⊢
        cases h2 : pyGetNat (pySplit q) (fi + 1) with
        | error e => rw [h2] at h; cases h
        | ok ta =>
          rw [h2] at h
          dsimp only at h ⊢
          cases h3 : alookup (aliasGet am ta) cat with
          | none => rw [h3] at h; cases h
          | some fr =>
            rw [h3] at h
            dsimp only at h
            by_cases hc : pyContains "COUNT(*)" q = true ∧
                "o_orderdate" ∈ (normFrame fr).cols
            · rw [if_pos hc] at h
              cases h
              rw [alookup_updateCat_self cat (aliasGet am ta) fr (normFrame fr) h3]
              dsimp only
              simp only [normFrame_idem]
              rw [if_pos hc, updateCat_updateCat]
            · rw [if_neg hc] at h
              by_cases hg : pyContains "GROUP BY" q = true
              · rw [if_pos hg] at h
                cases h
                rw [alookup_updateCat_self cat (aliasGet am ta) fr (normFrame fr) h3]
                dsimp only
                simp only [normFrame_idem]
                rw [if_neg hc, if_pos hg, updateCat_updateCat]
              · rw [if_neg hg] at h
                cases h
                rw [alookup_updateCat_self cat (aliasGet am ta) fr (normFrame fr) h3]
                dsimp only
                simp only [normFrame_idem]
                rw [if_neg hc, if_neg hg, updateCat_updateCat]

theorem runTables_const (conn : String → Except PyError String)
    (exp : Experiment) (pr : PdResult) (dr : String) (plr : PlResult)
    (cat2 : Catalog) (ts : List String)
    (hall : ∀ x ∈ ts, containsKey cat2 x = true)
    (hp : run_experiment_pandas exp.query cat2 = Except.ok (pr, cat2))
    (hd : conn exp.query = Except.ok dr)
    (hpl : run_experiment_polars exp.query cat2 = Except.ok plr) :
    runTables conn exp ts cat2 =
      Except.ok (List.replicate ts.length
        (ResultRow.mk exp.name pr dr plr), cat2) := by
  induction ts with
  | nil => rfl
  | cons t ts ih =>
    have ht : containsKey cat2 t = true := hall t (List.mem_cons_self t ts)
    have hall2 : ∀ x ∈ ts, containsKey cat2 x = true :=
      fun x hx => hall x (List.mem_cons_of_mem t hx)
    rw [runTables.eq_def]
    dsimp only
    rw [if_pos ht, hp]
    dsimp only
    rw [run_experiment_duckdb, hd]
    dsimp only
    rw [hpl]
    dsimp only
    rw [ih hall2]
    rw [List.length_cons, List.replicate_succ]

/-- Claim C9: an experiment whose `table` field lists N loaded table names
makes `main` execute the experiment's query once per listed name on every
engine — with identical inputs each time, since the loop variable is never
passed to the engines — and append N separate, identical result rows, rather
than one row per experiment. -/
theorem c9_duplicate_rows_per_table
    (conn : String → Except PyError String) (exp : Experiment) (cat : Catalog)
    (t : String) (ts : List String) (pr : PdResult) (dr : String)
    (plr : PlResult) (cat2 : Catalog)
    (hts : pySplitComma exp.table = t :: ts)
    (hall : ∀ x ∈ t :: ts, containsKey cat x = true)
    (hp : run_experiment_pandas exp.query cat = Except.ok (pr, cat2))
    (hd : conn exp.query = Except.ok dr)
    (hpl : run_experiment_polars exp.query cat2 = Except.ok plr) :
    runExperiments conn [exp] cat =
      Except.ok (List.replicate (t :: ts).length
        (ResultRow.mk exp.name pr dr plr), cat2) := by
  have hstable := run_pandas_stable exp.query cat cat2 pr hp
  have hall2 : ∀ x ∈ ts, containsKey cat2 x = true := fun x hx => by
    rw [run_pandas_containsKey exp.query cat pr cat2 hp x]
    exact hall x (List.mem_cons_of_mem t hx)
  have hrest := runTables_const conn exp pr dr plr cat2 ts hall2 hstable hd hpl
  have h1 : runTables conn exp (t :: ts) cat =
      Except.ok (ResultRow.mk exp.name pr dr plr ::
        List.replicate ts.length (ResultRow.mk exp.name pr dr plr), cat2) := by
    rw [runTables.eq_def]
    dsimp only
    rw [if_pos (hall t (List.mem_cons_self t ts)), hp]
    dsimp only
    rw [run_experiment_duckdb, hd]
    dsimp only
    rw [hpl]
    dsimp only
    rw [hrest]
  rw [runExperiments.eq_def]
  dsimp only
  rw [hts, h1]
  dsimp only
  rw [runExperiments.eq_def]
  dsimp only
  rw [List.append_nil, List.length_cons, List.replicate_succ]

/-- A duckdb connection stub that returns a fixed result frame string. -/
def duckOk : String → Except PyError String := fun _ => Except.ok "df"

/-- An experiment listing two loaded tables. -/
def expTwo : Experiment :=
  Experiment.mk "w" "orders, extra" "SELECT o_orderkey FROM orders"

/-- Catalog holding the two listed tables and the polars copy the query
resolves to. -/
def catTwo : Catalog :=
  [("orders", ordersPlain), ("extra", ordersPlain),
   ("orders_polars", ordersPlain)]

theorem c9_duplicate_rows_per_table_witness :
    runExperiments duckOk [expTwo] catTwo =
      Except.ok (List.replicate 2
        (ResultRow.mk "w" PdResult.none "df" PlResult.none), catTwo) :=
  c9_duplicate_rows_per_table duckOk expTwo catTwo "orders" ["extra"]
    PdResult.none "df" PlResult.none catTwo (by rfl) (by decide) (by rfl)
    (by rfl) (by rfl)
